import Mathlib

/-!
Verification of the upload/download pipeline of the bun-project content
editor.  The definitions below are a shallow embedding of the TypeScript
sources: the upload gateway (src/app/api/upload/route.ts), the R2 storage
wrapper (src/storage/r2.storage.ts), the generic uploaders
(src/storage/upload-utils.ts, both variants), the PDF and audio block tools
(src/lib/pdf/pdf-tool-refactored.ts, src/lib/audio/audio-tool.ts) and the
two download helpers (src/lib/utils/download.ts and the unnamed
lib/editorjs download utility).  Browser and network effects are modelled
as explicit oracle values describing the outcome of each external call.
-/

/-- JavaScript `a || b` on an optional string: an absent or empty string is
falsy, so the default is used for `undefined` and for `""`. -/
def jsOr (o : Option String) (d : String) : String :=
  match o with
  | none => d
  | some s => if s = "" then d else s

/-- JavaScript `a || b` on an optional number: `undefined` and `0` are falsy. -/
def jsOrNat (o : Option Nat) (d : Nat) : Nat :=
  match o with
  | none => d
  | some n => if n = 0 then d else n

/-- JavaScript `a ?? b` (nullish coalescing) on an optional string: only an
absent value falls back to the default, the empty string is kept. -/
def jsNullish (o : Option String) (d : String) : String :=
  o.getD d

/-- JavaScript truthiness of an optional boolean field (`!data.success`):
an absent field and `false` are both falsy. -/
def jsTruthy (o : Option Bool) : Bool :=
  o.getD false

/-- A browser `File` as the pipeline consumes it: original name, declared
MIME type, and byte length. -/
structure FileRep where
  name : String
  type : String
  size : Nat
  deriving DecidableEq, Repr

/-- List-level prefix test (character lists), used to model JavaScript
`String.prototype.startsWith`. -/
def startsWithL : List Char → List Char → Bool
  | _, [] => true
  | [], _ :: _ => false
  | c :: cs, p :: ps => c = p && startsWithL cs ps

/-- Models JavaScript `String.prototype.startsWith`. -/
def strStartsWith (s pre : String) : Bool :=
  startsWithL s.toList pre.toList

/-- A list starts with itself, whatever follows. -/
theorem startsWithL_append (p rest : List Char) :
    startsWithL (p ++ rest) p = true := by
  induction p with
  | nil => cases rest <;> rfl
  | cons c cs ih => simp [startsWithL, ih]

/-- A string starts with itself, whatever follows. -/
theorem strStartsWith_append (p rest : String) :
    strStartsWith (p ++ rest) p = true :=
  startsWithL_append p.data rest.data

/-- List-level infix test. -/
def containsSubL : List Char → List Char → Bool
  | [], pat => pat.isEmpty
  | c :: rest, pat => startsWithL (c :: rest) pat || containsSubL rest pat

/-- Substring test, modelling JavaScript `String.prototype.includes`. -/
def containsSub (s pat : String) : Bool :=
  containsSubL s.toList pat.toList

namespace UploadTypes

/-- src/types/upload.ts: `IMAGE_MIME_TYPES`. -/
def IMAGE_MIME_TYPES : List String :=
  ["image/jpeg", "image/png", "image/webp", "image/gif"]

/-- src/types/upload.ts: `VIDEO_MIME_TYPES`. -/
def VIDEO_MIME_TYPES : List String :=
  ["video/mp4", "video/webm", "video/quicktime"]

/-- src/types/upload.ts: `AUDIO_MIME_TYPES` (the gateway's audio allow-list). -/
def AUDIO_MIME_TYPES : List String :=
  ["audio/mpeg", "audio/mp3", "audio/wav", "audio/ogg", "audio/webm"]

/-- src/types/upload.ts: `MAX_IMAGE_SIZE = 10 * 1024 * 1024`. -/
def MAX_IMAGE_SIZE : Nat := 10 * 1024 * 1024

/-- src/types/upload.ts: `MAX_VIDEO_SIZE = 100 * 1024 * 1024`. -/
def MAX_VIDEO_SIZE : Nat := 100 * 1024 * 1024

/-- src/types/upload.ts: `MAX_AUDIO_SIZE = 50 * 1024 * 1024`. -/
def MAX_AUDIO_SIZE : Nat := 50 * 1024 * 1024

/-- The gateway's PDF allow-list.  The route imports `PDF_MIME_TYPES` from
the upload types module, whose PDF entries are not in the snapshot; the
list below is `PDF_MIME_TYPES` from src/types/pdf.ts (src/unnamed/part_008,
lines 94-101), which the claims designate as the gateway's PDF allow-list. -/
def PDF_MIME_TYPES : List String :=
  ["application/pdf", "application/x-pdf", "application/acrobat",
   "application/vnd.pdf", "text/pdf", "text/x-pdf"]

/-- Modelled from the spec: `MAX_PDF_SIZE` is imported by the route from the
upload types module but its definition is missing from the snapshot; the
spec's scenario fixes a 20MB PDF ceiling ("upload a 5MB file with MIME
application/pdf against a 20MB PDF ceiling"), matching `DEFAULT_PDF_CONFIG`
in src/types/pdf.ts. -/
def MAX_PDF_SIZE : Nat := 20 * 1024 * 1024

end UploadTypes

namespace Route

open UploadTypes

/-- src/app/api/upload/route.ts, `generateUploadKey` (lines 13-24):
the file name is sanitized by replacing every character outside
`[a-zA-Z0-9.-]` with an underscore, and the folder is chosen from the MIME
type: prefix `video/` maps to `uploads/videos`, prefix `audio/` to
`uploads/audio`, exactly `application/pdf` to `uploads/pdfs`, and
everything else defaults to `uploads/images`.  `Date.now()` is the `now`
parameter. -/
def generateUploadKey (file : FileRep) (now : Nat) : String :=
  let safe := String.mk (file.name.toList.map (fun c =>
    if c.isAlpha || c.isDigit || c = '.' || c = '-' then c else '_'))
  let folder :=
    if strStartsWith file.type "video/" then "uploads/videos"
    else if strStartsWith file.type "audio/" then "uploads/audio"
    else if file.type = "application/pdf" then "uploads/pdfs"
    else "uploads/images"
  folder ++ "/" ++ toString now ++ "-" ++ safe

/-- A storage write recorded against the backend: `r2Storage.upload` is
called with the derived key and the file's MIME type. -/
structure StorageCall where
  key : String
  mime : String
  deriving DecidableEq, Repr

/-- src/storage/r2.storage.ts, `R2Storage.upload`: writes the buffer and
returns the configured public base joined with the key. -/
def r2Upload (publicBase key : String) : String :=
  publicBase ++ "/" ++ key

/-- The gateway's JSON responses: `200 {success:true, publicUrl, type}`,
`400 {error}`, or `500 {error}`. -/
inductive Resp where
  | ok (publicUrl : String) (fileType : String)
  | clientError (error : String)
  | serverError (error : String)
  deriving DecidableEq, Repr

/-- Server-side environment of one request: the clock value used for the
key, the configured public base URL, and whether the storage backend's
write throws. -/
structure Env where
  time : Nat
  publicBase : String
  storageFails : Bool
  deriving Repr

/-- src/app/api/upload/route.ts, `POST` (lines 26-83).  The multipart field
`file` is `none` when absent or not a `File`.  Returns the response
together with the list of storage writes performed. -/
def POST (form : Option FileRep) (env : Env) : Resp × List StorageCall :=
  match form with
  | none => (.clientError "No file provided", [])
  | some file =>
    let isImage := file.type ∈ IMAGE_MIME_TYPES
    let isVideo := file.type ∈ VIDEO_MIME_TYPES
    let isAud := file.type ∈ AUDIO_MIME_TYPES
    let isPdf := file.type ∈ PDF_MIME_TYPES
    if ¬isImage ∧ ¬isVideo ∧ ¬isAud ∧ ¬isPdf then
      (.clientError "Unsupported file type", [])
    else if isImage ∧ file.size > MAX_IMAGE_SIZE then
      (.clientError "Image too large", [])
    else if isVideo ∧ file.size > MAX_VIDEO_SIZE then
      (.clientError "Video too large", [])
    else if isAud ∧ file.size > MAX_AUDIO_SIZE then
      (.clientError "Audio too large", [])
    else if isPdf ∧ file.size > MAX_PDF_SIZE then
      (.clientError "PDF too large", [])
    else
      let key := generateUploadKey file env.time
      if env.storageFails then
        (.serverError "Upload failed", [⟨key, file.type⟩])
      else
        let fileType :=
          if isImage then "image"
          else if isVideo then "video"
          else if isAud then "audio"
          else if isPdf then "pdf"
          else "other"
        (.ok (r2Upload env.publicBase key) fileType, [⟨key, file.type⟩])

end Route

namespace PdfTypes

/-- Raw block data as the duck-typed validators see it: an object whose
`url` field may be absent (`none`) or any string. -/
structure RawBlockData where
  url : Option String
  deriving DecidableEq, Repr

/-- src/types/pdf.ts (src/unnamed/part_008, lines 115-117),
`isValidPDFData`: the value must be an object whose `url` is a string of
positive length. -/
def isValidPDFData (data : RawBlockData) : Bool :=
  match data.url with
  | some s => decide (s.length > 0)
  | none => false

end PdfTypes

namespace AudioTypes

/-- src/types/audio.ts (lines 172-174), `isValidAudioData`: identical check
on audio block data. -/
def isValidAudioData (data : PdfTypes.RawBlockData) : Bool :=
  match data.url with
  | some s => decide (s.length > 0)
  | none => false

end AudioTypes

section GatewayLemmas

open UploadTypes

/-- The four allow-lists are pairwise disjoint: an image MIME type is in no
other list. -/
theorem image_not_others :
    ∀ s ∈ IMAGE_MIME_TYPES,
      s ∉ VIDEO_MIME_TYPES ∧ s ∉ AUDIO_MIME_TYPES ∧ s ∉ PDF_MIME_TYPES := by
  decide

/-- A video MIME type is in no other allow-list. -/
theorem video_not_others :
    ∀ s ∈ VIDEO_MIME_TYPES,
      s ∉ IMAGE_MIME_TYPES ∧ s ∉ AUDIO_MIME_TYPES ∧ s ∉ PDF_MIME_TYPES := by
  decide

/-- An audio MIME type is in no other allow-list. -/
theorem audio_not_others :
    ∀ s ∈ AUDIO_MIME_TYPES,
      s ∉ IMAGE_MIME_TYPES ∧ s ∉ VIDEO_MIME_TYPES ∧ s ∉ PDF_MIME_TYPES := by
  decide

/-- A PDF MIME type is in no other allow-list. -/
theorem pdf_not_others :
    ∀ s ∈ PDF_MIME_TYPES,
      s ∉ IMAGE_MIME_TYPES ∧ s ∉ VIDEO_MIME_TYPES ∧ s ∉ AUDIO_MIME_TYPES := by
  decide

/-- Accepted image upload: the gateway stores once and answers
`success:true` with type `image`. -/
theorem POST_ok_image (f : FileRep) (env : Route.Env)
    (hm : f.type ∈ IMAGE_MIME_TYPES) (hsz : ¬ f.size > MAX_IMAGE_SIZE)
    (hst : env.storageFails = false) :
    Route.POST (some f) env =
      (.ok (Route.r2Upload env.publicBase (Route.generateUploadKey f env.time)) "image",
       [⟨Route.generateUploadKey f env.time, f.type⟩]) := by
  obtain ⟨hV, hA, hP⟩ := image_not_others _ hm
  simp [Route.POST, hm, hV, hA, hP, hsz, hst]

/-- Accepted video upload: one storage write, type `video`. -/
theorem POST_ok_video (f : FileRep) (env : Route.Env)
    (hm : f.type ∈ VIDEO_MIME_TYPES) (hsz : ¬ f.size > MAX_VIDEO_SIZE)
    (hst : env.storageFails = false) :
    Route.POST (some f) env =
      (.ok (Route.r2Upload env.publicBase (Route.generateUploadKey f env.time)) "video",
       [⟨Route.generateUploadKey f env.time, f.type⟩]) := by
  obtain ⟨hI, hA, hP⟩ := video_not_others _ hm
  simp [Route.POST, hm, hI, hA, hP, hsz, hst]

/-- Accepted audio upload: one storage write, type `audio`. -/
theorem POST_ok_audio (f : FileRep) (env : Route.Env)
    (hm : f.type ∈ AUDIO_MIME_TYPES) (hsz : ¬ f.size > MAX_AUDIO_SIZE)
    (hst : env.storageFails = false) :
    Route.POST (some f) env =
      (.ok (Route.r2Upload env.publicBase (Route.generateUploadKey f env.time)) "audio",
       [⟨Route.generateUploadKey f env.time, f.type⟩]) := by
  obtain ⟨hI, hV, hP⟩ := audio_not_others _ hm
  simp [Route.POST, hm, hI, hV, hP, hsz, hst]

/-- Accepted PDF upload: one storage write, type `pdf`. -/
theorem POST_ok_pdf (f : FileRep) (env : Route.Env)
    (hm : f.type ∈ PDF_MIME_TYPES) (hsz : ¬ f.size > MAX_PDF_SIZE)
    (hst : env.storageFails = false) :
    Route.POST (some f) env =
      (.ok (Route.r2Upload env.publicBase (Route.generateUploadKey f env.time)) "pdf",
       [⟨Route.generateUploadKey f env.time, f.type⟩]) := by
  obtain ⟨hI, hV, hA⟩ := pdf_not_others _ hm
  simp [Route.POST, hm, hI, hV, hA, hsz, hst]

/-- Oversized image upload is rejected before any storage write. -/
theorem POST_reject_image (f : FileRep) (env : Route.Env)
    (hm : f.type ∈ IMAGE_MIME_TYPES) (hsz : f.size > MAX_IMAGE_SIZE) :
    Route.POST (some f) env = (.clientError "Image too large", []) := by
  simp [Route.POST, hm, hsz]

/-- Oversized video upload is rejected before any storage write. -/
theorem POST_reject_video (f : FileRep) (env : Route.Env)
    (hm : f.type ∈ VIDEO_MIME_TYPES) (hsz : f.size > MAX_VIDEO_SIZE) :
    Route.POST (some f) env = (.clientError "Video too large", []) := by
  obtain ⟨hI, _, _⟩ := video_not_others _ hm
  by_cases hszI : f.size > MAX_IMAGE_SIZE <;>
    simp [Route.POST, hm, hI, hsz, hszI]

/-- Oversized audio upload is rejected before any storage write. -/
theorem POST_reject_audio (f : FileRep) (env : Route.Env)
    (hm : f.type ∈ AUDIO_MIME_TYPES) (hsz : f.size > MAX_AUDIO_SIZE) :
    Route.POST (some f) env = (.clientError "Audio too large", []) := by
  obtain ⟨hI, hV, _⟩ := audio_not_others _ hm
  by_cases hszI : f.size > MAX_IMAGE_SIZE <;>
    by_cases hszV : f.size > MAX_VIDEO_SIZE <;>
      simp [Route.POST, hm, hI, hV, hsz, hszI, hszV]

/-- Oversized PDF upload is rejected before any storage write. -/
theorem POST_reject_pdf (f : FileRep) (env : Route.Env)
    (hm : f.type ∈ PDF_MIME_TYPES) (hsz : f.size > MAX_PDF_SIZE) :
    Route.POST (some f) env = (.clientError "PDF too large", []) := by
  obtain ⟨hI, hV, hA⟩ := pdf_not_others _ hm
  by_cases hszI : f.size > MAX_IMAGE_SIZE <;>
    by_cases hszV : f.size > MAX_VIDEO_SIZE <;>
      by_cases hszA : f.size > MAX_AUDIO_SIZE <;>
        simp [Route.POST, hm, hI, hV, hA, hsz, hszI, hszV, hszA]

end GatewayLemmas

/-- C3 counterexample input: a PDF named `"a b.pdf"`. -/
def c3File : FileRep := ⟨"a b.pdf", "application/pdf", 5⟩

/-- C3: the claim asserts the key equals
`"<category-folder>/<epoch-millis>-<sanitized-filename>"` with the category
folder one of `images`, `videos`, `audio`, `pdfs`.  The code prepends an
`uploads/` segment: for the file `"a b.pdf"` of type `application/pdf` at
epoch 1000 the key is `"uploads/pdfs/1000-a_b.pdf"`, which matches none of
the four claimed shapes. -/
theorem C3_key_shape_counterexample :
    Route.generateUploadKey c3File 1000 = "uploads/pdfs/1000-a_b.pdf" ∧
    ∀ folder ∈ (["images", "videos", "audio", "pdfs"] : List String),
      Route.generateUploadKey c3File 1000 ≠ folder ++ "/1000-a_b.pdf" := by
  constructor
  · rfl
  · decide

/-- Spec-side category folder: the folder segment the claim describes,
derived from the MIME type the way `generateUploadKey` chooses it. -/
def categoryFolderSpec (mime : String) : String :=
  if strStartsWith mime "video/" then "videos"
  else if strStartsWith mime "audio/" then "audio"
  else if mime = "application/pdf" then "pdfs"
  else "images"

/-- Spec-side sanitization: every character outside `[A-Za-z0-9.-]`
becomes an underscore. -/
def sanitizeSpec (name : String) : String :=
  String.mk (name.toList.map (fun c =>
    if c.isAlpha || c.isDigit || c = '.' || c = '-' then c else '_'))

/-- C3 (amended): the storage key equals
`"uploads/" ++ <category-folder> ++ "/" ++ <epoch-millis> ++ "-" ++ <sanitized-filename>`
with the category folder one of `images`, `videos`, `audio`, `pdfs` chosen
by MIME prefix (`video/`, `audio/`) or exact equality with
`application/pdf`, defaulting to `images`; sanitization replaces every
character outside `[A-Za-z0-9.-]` with `_`.  The key is a function of the
file name, MIME type and clock only — the raw bytes are not hashed into
it. -/
theorem C3_key_shape (file : FileRep) (now : Nat) :
    Route.generateUploadKey file now =
      "uploads/" ++ categoryFolderSpec file.type ++ "/" ++ toString now ++ "-"
        ++ sanitizeSpec file.name ∧
    categoryFolderSpec file.type ∈ (["images", "videos", "audio", "pdfs"] : List String) := by
  unfold Route.generateUploadKey categoryFolderSpec sanitizeSpec
  refine ⟨?_, ?_⟩ <;> split_ifs <;> simp [String.ext_iff]

section GatewayClaims

open UploadTypes

/-- C1: for every upload whose MIME type is in one of the four allow-lists
and whose size is at or under that category's ceiling (and whose storage
write succeeds), the gateway answers `success: true` with a `type` tag that
is exactly one of `image`, `video`, `audio`, `pdf`, and `publicUrl` equal
to the configured public base joined with the derived storage key. -/
theorem C1_gateway_success (f : FileRep) (env : Route.Env)
    (hst : env.storageFails = false)
    (h : (f.type ∈ IMAGE_MIME_TYPES ∧ f.size ≤ MAX_IMAGE_SIZE) ∨
         (f.type ∈ VIDEO_MIME_TYPES ∧ f.size ≤ MAX_VIDEO_SIZE) ∨
         (f.type ∈ AUDIO_MIME_TYPES ∧ f.size ≤ MAX_AUDIO_SIZE) ∨
         (f.type ∈ PDF_MIME_TYPES ∧ f.size ≤ MAX_PDF_SIZE)) :
    ∃ t, (Route.POST (some f) env).1 =
        .ok (env.publicBase ++ "/" ++ Route.generateUploadKey f env.time) t ∧
      t ∈ (["image", "video", "audio", "pdf"] : List String) := by
  rcases h with ⟨hm, hs⟩ | ⟨hm, hs⟩ | ⟨hm, hs⟩ | ⟨hm, hs⟩
  · exact ⟨"image", by rw [POST_ok_image f env hm (by omega) hst]; rfl, by simp⟩
  · exact ⟨"video", by rw [POST_ok_video f env hm (by omega) hst]; rfl, by simp⟩
  · exact ⟨"audio", by rw [POST_ok_audio f env hm (by omega) hst]; rfl, by simp⟩
  · exact ⟨"pdf", by rw [POST_ok_pdf f env hm (by omega) hst]; rfl, by simp⟩

/-- C1 witness: a 5MB `application/pdf` upload is accepted with type
`pdf` and the base-joined URL. -/
theorem C1_gateway_success_witness :
    ∃ t, (Route.POST (some ⟨"doc.pdf", "application/pdf", 5242880⟩)
        ⟨1000, "https://cdn", false⟩).1 =
        .ok ("https://cdn" ++ "/" ++
          Route.generateUploadKey ⟨"doc.pdf", "application/pdf", 5242880⟩ 1000) t ∧
      t ∈ (["image", "video", "audio", "pdf"] : List String) :=
  C1_gateway_success ⟨"doc.pdf", "application/pdf", 5242880⟩ ⟨1000, "https://cdn", false⟩
    rfl (Or.inr (Or.inr (Or.inr ⟨by decide, by decide⟩)))

/-- C2: a request with no file, an unlisted MIME type, or a size above the
matched category's ceiling is rejected with a 400-class error — naming the
category with "too large" in the oversize case — and the storage backend's
upload is never invoked. -/
theorem C2_gateway_reject (form : Option FileRep) (env : Route.Env)
    (h : form = none ∨
      (∃ f, form = some f ∧ f.type ∉ IMAGE_MIME_TYPES ∧
        f.type ∉ VIDEO_MIME_TYPES ∧ f.type ∉ AUDIO_MIME_TYPES ∧
        f.type ∉ PDF_MIME_TYPES) ∨
      (∃ f, form = some f ∧
        ((f.type ∈ IMAGE_MIME_TYPES ∧ f.size > MAX_IMAGE_SIZE) ∨
         (f.type ∈ VIDEO_MIME_TYPES ∧ f.size > MAX_VIDEO_SIZE) ∨
         (f.type ∈ AUDIO_MIME_TYPES ∧ f.size > MAX_AUDIO_SIZE) ∨
         (f.type ∈ PDF_MIME_TYPES ∧ f.size > MAX_PDF_SIZE)))) :
    (Route.POST form env).2 = [] ∧
    (∃ msg, (Route.POST form env).1 = .clientError msg) ∧
    (∀ f, form = some f → f.type ∈ IMAGE_MIME_TYPES → f.size > MAX_IMAGE_SIZE →
      (Route.POST form env).1 = .clientError "Image too large") ∧
    (∀ f, form = some f → f.type ∈ VIDEO_MIME_TYPES → f.size > MAX_VIDEO_SIZE →
      (Route.POST form env).1 = .clientError "Video too large") ∧
    (∀ f, form = some f → f.type ∈ AUDIO_MIME_TYPES → f.size > MAX_AUDIO_SIZE →
      (Route.POST form env).1 = .clientError "Audio too large") ∧
    (∀ f, form = some f → f.type ∈ PDF_MIME_TYPES → f.size > MAX_PDF_SIZE →
      (Route.POST form env).1 = .clientError "PDF too large") := by
  have himg : ∀ f, form = some f → f.type ∈ IMAGE_MIME_TYPES →
      f.size > MAX_IMAGE_SIZE →
      (Route.POST form env).1 = .clientError "Image too large" := by
    rintro f rfl hm hsz
    rw [POST_reject_image f env hm hsz]
  have hvid : ∀ f, form = some f → f.type ∈ VIDEO_MIME_TYPES →
      f.size > MAX_VIDEO_SIZE →
      (Route.POST form env).1 = .clientError "Video too large" := by
    rintro f rfl hm hsz
    rw [POST_reject_video f env hm hsz]
  have haud : ∀ f, form = some f → f.type ∈ AUDIO_MIME_TYPES →
      f.size > MAX_AUDIO_SIZE →
      (Route.POST form env).1 = .clientError "Audio too large" := by
    rintro f rfl hm hsz
    rw [POST_reject_audio f env hm hsz]
  have hpdf : ∀ f, form = some f → f.type ∈ PDF_MIME_TYPES →
      f.size > MAX_PDF_SIZE →
      (Route.POST form env).1 = .clientError "PDF too large" := by
    rintro f rfl hm hsz
    rw [POST_reject_pdf f env hm hsz]
  refine ⟨?_, ?_, himg, hvid, haud, hpdf⟩ <;>
  · rcases h with rfl | ⟨f, rfl, h1, h2, h3, h4⟩ | ⟨f, rfl, hc⟩
    · simp [Route.POST]
    · simp [Route.POST, h1, h2, h3, h4]
    · rcases hc with ⟨hm, hsz⟩ | ⟨hm, hsz⟩ | ⟨hm, hsz⟩ | ⟨hm, hsz⟩
      · simp [POST_reject_image f env hm hsz]
      · simp [POST_reject_video f env hm hsz]
      · simp [POST_reject_audio f env hm hsz]
      · simp [POST_reject_pdf f env hm hsz]

/-- C2 witness: a 30MB `image/png` upload is rejected with
`"Image too large"` and no storage write occurs. -/
theorem C2_gateway_reject_witness :
    (Route.POST (some ⟨"big.png", "image/png", 31457280⟩)
        ⟨7, "https://cdn", false⟩).2 = [] ∧
    (∃ msg, (Route.POST (some ⟨"big.png", "image/png", 31457280⟩)
        ⟨7, "https://cdn", false⟩).1 = .clientError msg) ∧
    (Route.POST (some ⟨"big.png", "image/png", 31457280⟩)
        ⟨7, "https://cdn", false⟩).1 = .clientError "Image too large" := by
  have h := C2_gateway_reject (some ⟨"big.png", "image/png", 31457280⟩)
    ⟨7, "https://cdn", false⟩
    (Or.inr (Or.inr ⟨⟨"big.png", "image/png", 31457280⟩, rfl,
      Or.inl ⟨by decide, by decide⟩⟩))
  exact ⟨h.1, h.2.1, h.2.2.1 _ rfl (by decide) (by decide)⟩

/-- No PDF allow-list entry has a `video/` or `audio/` prefix. -/
theorem pdf_list_not_av :
    ∀ s ∈ UploadTypes.PDF_MIME_TYPES,
      strStartsWith s "video/" = false ∧ strStartsWith s "audio/" = false := by
  decide

/-- C10: the `type` tag comes from the allow-list classification but the
key folder from an independent prefix/equality test, so a file whose MIME
type is on the PDF allow-list without being exactly `application/pdf` is
reported as `type: "pdf"` while its storage key lives under
`uploads/images/`. -/
theorem C10_pdf_tag_images_folder (f : FileRep) (env : Route.Env)
    (hm : f.type ∈ UploadTypes.PDF_MIME_TYPES)
    (hne : f.type ≠ "application/pdf")
    (hsz : ¬ f.size > UploadTypes.MAX_PDF_SIZE)
    (hst : env.storageFails = false) :
    (Route.POST (some f) env).1 =
      .ok (env.publicBase ++ "/" ++ Route.generateUploadKey f env.time) "pdf" ∧
    (Route.POST (some f) env).2 =
      [⟨Route.generateUploadKey f env.time, f.type⟩] ∧
    strStartsWith (Route.generateUploadKey f env.time) "uploads/images/" = true := by
  refine ⟨by rw [POST_ok_pdf f env hm hsz hst]; rfl,
    by rw [POST_ok_pdf f env hm hsz hst], ?_⟩
  obtain ⟨hv, ha⟩ := pdf_list_not_av _ hm
  have hfolder : Route.generateUploadKey f env.time =
      "uploads/images/" ++ (toString env.time ++ "-" ++ sanitizeSpec f.name) := by
    simp [Route.generateUploadKey, sanitizeSpec, hv, ha, hne, String.ext_iff,
      List.append_assoc]
  rw [hfolder]
  exact strStartsWith_append _ _

/-- C10 witness: a small `text/pdf` upload is tagged `pdf` but stored under
`uploads/images/`. -/
theorem C10_pdf_tag_images_folder_witness :
    (Route.POST (some ⟨"x.pdf", "text/pdf", 5⟩) ⟨1000, "https://cdn", false⟩).1 =
      .ok ("https://cdn" ++ "/" ++
        Route.generateUploadKey ⟨"x.pdf", "text/pdf", 5⟩ 1000) "pdf" ∧
    (Route.POST (some ⟨"x.pdf", "text/pdf", 5⟩) ⟨1000, "https://cdn", false⟩).2 =
      [⟨Route.generateUploadKey ⟨"x.pdf", "text/pdf", 5⟩ 1000, "text/pdf"⟩] ∧
    strStartsWith (Route.generateUploadKey ⟨"x.pdf", "text/pdf", 5⟩ 1000)
      "uploads/images/" = true :=
  C10_pdf_tag_images_folder ⟨"x.pdf", "text/pdf", 5⟩ ⟨1000, "https://cdn", false⟩
    (by decide) (by decide) (by decide) rfl

end GatewayClaims

/-- C4: a block's `validate` returns false exactly when the `url` field is
absent or empty, and true for every non-empty string, for both the PDF
validator (`isValidPDFData`) and the audio validator (`isValidAudioData`);
no reachability or well-formedness of the URL is consulted. -/
theorem C4_validate_iff (data : PdfTypes.RawBlockData) :
    (PdfTypes.isValidPDFData data = true ↔
      data.url ≠ none ∧ data.url ≠ some "") ∧
    (AudioTypes.isValidAudioData data = true ↔
      data.url ≠ none ∧ data.url ≠ some "") ∧
    AudioTypes.isValidAudioData data = PdfTypes.isValidPDFData data := by
  obtain ⟨url⟩ := data
  cases url with
  | none =>
    simp [PdfTypes.isValidPDFData, AudioTypes.isValidAudioData]
  | some s =>
    obtain ⟨l⟩ := s
    simp [PdfTypes.isValidPDFData, AudioTypes.isValidAudioData,
      String.length, String.ext_iff, List.length_pos]

/-- Parsed JSON body of a gateway response as the client-side uploaders
read it: presence and truthiness of the `success` flag, and the optional
`error` and `publicUrl` fields. -/
structure RespBody where
  success : Option Bool := none
  error : Option String := none
  publicUrl : Option String := none
  deriving DecidableEq, Repr

/-- Outcome of the client's `fetch` + `res.json()` step: either the chain
throws (network failure or body-parse failure), carrying the thrown
`Error`'s message when there is one, or it yields a response with its HTTP
ok-status and parsed body. -/
inductive FetchOutcome where
  | throws (msg : Option String)
  | response (ok : Bool) (body : RespBody)
  deriving DecidableEq, Repr

namespace UploaderV1

/-- Structure `UploadResult` from src/types/upload.ts: `success` with optional `url`
and `error`. -/
structure UploadResult where
  success : Bool
  url : Option String := none
  error : Option String := none
  deriving DecidableEq, Repr

/-- src/storage/upload-utils.ts, lines 3-28: `uploadFile` returning
`UploadResult`.  On a thrown exception returns failure with the error's
message or `"Upload failed"`; on a non-ok response returns failure with
`data?.error ?? 'Upload failed'`; on any ok response returns success with
the body's `publicUrl`, without inspecting the body's `success` flag. -/
def uploadFile (outcome : FetchOutcome) : UploadResult :=
  match outcome with
  | .throws msg => { success := false, error := some (jsNullish msg "Upload failed") }
  | .response ok body =>
    if !ok then
      { success := false, error := some (jsNullish body.error "Upload failed") }
    else
      { success := true, url := body.publicUrl }

end UploaderV1

namespace UploaderV2

/-- The `file` payload of `EditorUploadResponse`: the body's `publicUrl`
together with the source file's name and size, `title` duplicating the
name. -/
structure EditorFile where
  url : Option String := none
  name : String
  size : Nat
  title : String
  deriving DecidableEq, Repr

/-- Structure `EditorUploadResponse`: `success` is `1` or `0`. -/
structure EditorUploadResponse where
  success : Nat
  file : Option EditorFile := none
  message : Option String := none
  deriving DecidableEq, Repr

/-- src/storage/upload-utils.ts, lines 30-71: `uploadFile` returning
`EditorUploadResponse`.  Fails when the response is non-ok or the body's
`success` flag is falsy, with `data.error || 'Upload failed'`; on success
fills name/size/title from the source `File`. -/
def uploadFile (file : FileRep) (outcome : FetchOutcome) : EditorUploadResponse :=
  match outcome with
  | .throws msg => { success := 0, message := some (jsNullish msg "Upload failed") }
  | .response ok body =>
    if !ok || !(jsTruthy body.success) then
      { success := 0, message := some (jsOr body.error "Upload failed") }
    else
      { success := 1,
        file := some { url := body.publicUrl, name := file.name,
                       size := file.size, title := file.name } }

end UploaderV2

/-- C6 counterexample: the `UploadResult` variant of `uploadFile`
(src/storage/upload-utils.ts lines 3-28), given a 2xx response whose body
lacks a success flag, returns the success variant (with no error), not the
`Failure` the claim requires. -/
theorem C6_success_flag_counterexample :
    (UploaderV1.uploadFile (.response true ⟨none, none, none⟩)).success = true ∧
    (UploaderV1.uploadFile (.response true ⟨none, none, none⟩)).error = none := by
  constructor <;> rfl

/-- C6 (amended): both `uploadFile` variants are total functions of the
fetch outcome — every invocation, including a thrown network or parse
exception, yields a result value.  The `EditorUploadResponse` variant
returns the failure variant on a non-2xx response or a body whose success
flag is absent or falsy, carrying `data.error || 'Upload failed'`, and
converts exceptions to failure with the error's message or the default.
The `UploadResult` variant does the same for non-2xx responses and
exceptions (with `data?.error ?? 'Upload failed'`) but does not inspect
the body's success flag on a 2xx response. -/
theorem C6_uploader_failure_normalization (file : FileRep) (ok : Bool)
    (body : RespBody) (msg : Option String) :
    ((UploaderV2.uploadFile file (.throws msg)).success = 0 ∧
      (UploaderV2.uploadFile file (.throws msg)).message =
        some (jsNullish msg "Upload failed")) ∧
    (ok = false ∨ jsTruthy body.success = false →
      (UploaderV2.uploadFile file (.response ok body)).success = 0 ∧
      (UploaderV2.uploadFile file (.response ok body)).message =
        some (jsOr body.error "Upload failed")) ∧
    ((UploaderV1.uploadFile (.throws msg)).success = false ∧
      (UploaderV1.uploadFile (.throws msg)).error =
        some (jsNullish msg "Upload failed")) ∧
    (ok = false →
      (UploaderV1.uploadFile (.response ok body)).success = false ∧
      (UploaderV1.uploadFile (.response ok body)).error =
        some (jsNullish body.error "Upload failed")) := by
  refine ⟨⟨rfl, rfl⟩, ?_, ⟨rfl, rfl⟩, ?_⟩
  · rintro (rfl | hflag)
    · exact ⟨rfl, rfl⟩
    · simp [UploaderV2.uploadFile, hflag]
  · rintro rfl
    exact ⟨rfl, rfl⟩

/-- C6 witness: a 400 response with body `{error: "Unsupported file type"}`
is normalized to a failure result carrying the server's message by both
variants. -/
theorem C6_uploader_failure_normalization_witness :
    (UploaderV2.uploadFile ⟨"a.mp3", "audio/mpeg", 10⟩
        (.response false ⟨none, some "Unsupported file type", none⟩)).success = 0 ∧
    (UploaderV2.uploadFile ⟨"a.mp3", "audio/mpeg", 10⟩
        (.response false ⟨none, some "Unsupported file type", none⟩)).message =
      some "Unsupported file type" ∧
    (UploaderV1.uploadFile
        (.response false ⟨none, some "Unsupported file type", none⟩)).success = false := by
  have h := C6_uploader_failure_normalization ⟨"a.mp3", "audio/mpeg", 10⟩ false
    ⟨none, some "Unsupported file type", none⟩ none
  refine ⟨(h.2.1 (Or.inl rfl)).1, ?_, (h.2.2.2 rfl).1⟩
  have h2 := (h.2.1 (Or.inl rfl)).2
  simpa [jsOr] using h2

/-- JavaScript whitespace characters relevant to `String.prototype.trim`. -/
def jsWs (c : Char) : Bool :=
  c = ' ' || c = '\t' || c = '\n' || c = '\r'

/-- Models `!url.trim()`: the string is empty after trimming iff every character
is whitespace. -/
def jsTrimEmpty (s : String) : Bool :=
  s.toList.all jsWs

/-- JS `this.config.maxSize && file.size > this.config.maxSize`: a missing
or zero limit is falsy, otherwise the comparison decides. -/
def jsMaxExceeded (maxSize : Option Nat) (size : Nat) : Bool :=
  match maxSize with
  | none => false
  | some m => if m = 0 then false else decide (size > m)

/-- Megabyte figure shown in size-limit messages: `bytes/1024/1024` rounded
to the nearest integer (`Math.round`, and `toFixed(0)` for positive
values); exact for whole-megabyte limits. -/
def mbRound (m : Nat) : Nat :=
  (m + 524288) / 1048576

/-- Outcome of a `HEAD` reachability probe: the fetch either throws, or
resolves with an HTTP ok-status and an optional `content-type` header. -/
inductive HeadOutcome where
  | throws (msg : Option String)
  | response (ok : Bool) (contentType : Option String)
  deriving DecidableEq, Repr

namespace PDFTool

/-- Structure `PDFFileData` from src/types/pdf.ts: url, name, size required, title
optional. -/
structure PDFFileData where
  url : String
  name : String
  size : Nat
  title : Option String := none
  deriving DecidableEq, Repr

/-- Structure `PDFData` from src/types/pdf.ts: the block's serialized form. -/
structure PDFData where
  url : String
  title : Option String := none
  file : Option PDFFileData := none
  deriving DecidableEq, Repr

/-- Structure `PDFUploadResponse` from src/types/pdf.ts: `success: 1 | 0` with an
optional file payload and message. -/
structure UploadResponse where
  success : Nat
  file : Option PDFFileData := none
  message : Option String := none
  deriving DecidableEq, Repr

/-- The slice of `PDFUploadConfig` the handlers read: the size ceiling, the
configured error message, and whether an uploader function is configured. -/
structure Config where
  maxSize : Option Nat := some (20 * 1024 * 1024)
  errorMessage : Option String := none
  hasUploader : Bool := true
  deriving Repr

/-- Observable state of a `PDFTool` block: its data and the inline error
display (empty upload state shows the error, a populated block shows the
card). -/
structure State where
  data : PDFData
  error : Option String := none
  deriving DecidableEq, Repr

/-- Outcome of `await this.config.uploader(file)`: the promise resolves
with a response or rejects. -/
inductive UploaderOutcome where
  | resolves (r : UploadResponse)
  | throws (msg : Option String)
  deriving DecidableEq, Repr

/-- src/lib/pdf/pdf-tool-refactored.ts, `save` (lines 375-377): returns
the current block data verbatim. -/
def save (s : State) : PDFData :=
  s.data

/-- The `AttachmentData` value assembled on a successful upload
(src/lib/pdf/pdf-tool-refactored.ts lines 273-281): url from the result,
name/size/title falling back to the source file (JS `||`). -/
def assembleData (file : FileRep) (rf : PDFFileData) : PDFData :=
  { url := rf.url,
    title := none,
    file := some { url := rf.url,
                   name := if rf.name = "" then file.name else rf.name,
                   size := if rf.size = 0 then file.size else rf.size,
                   title := some (jsOr rf.title file.name) } }

/-- src/lib/pdf/pdf-tool-refactored.ts, `handleFileUpload` (lines 252-289):
reject non-PDF MIME types and oversizes inline, then call the uploader;
on `success === 1 && file` store the assembled data and switch to the
display render, otherwise show the failure message and stay in the upload
state. -/
def handleFileUpload (s : State) (cfg : Config) (file : FileRep)
    (uploader : UploaderOutcome) : State :=
  if file.type ≠ "application/pdf" then
    { s with error := some (jsOr cfg.errorMessage "Please select a PDF file") }
  else if jsMaxExceeded cfg.maxSize file.size then
    { s with error := some ("File size exceeds "
        ++ toString (mbRound (cfg.maxSize.getD 0)) ++ "MB limit") }
  else if ¬ cfg.hasUploader then
    { s with error := some "No upload method configured" }
  else
    match uploader with
    | .throws msg => { s with error := some (jsNullish msg "Upload failed") }
    | .resolves r =>
      match r.file with
      | some rf =>
        if r.success = 1 then
          { data := assembleData file rf, error := none }
        else
          { s with error := some (jsOr r.message "Upload failed") }
      | none => { s with error := some (jsOr r.message "Upload failed") }

/-- The paste/URL pattern `^https?:\/\/.+\.pdf(\?.*)?$` (case-insensitive):
scan for a `".pdf"` occurrence that is followed by the end or a query
string and preceded by at least one character after the scheme. -/
def hasPdfStop : List Char → Bool
  | [] => false
  | c :: rest =>
    (startsWithL (c :: rest) (".pdf".toList) &&
      (match (c :: rest).drop 4 with
       | [] => true
       | '?' :: _ => true
       | _ => false)) || hasPdfStop rest

/-- Models `urlPattern.test(url)` from `handleUrlUpload`: scheme `http://` or
`https://`, at least one character, then `.pdf` with an optional query. -/
def pdfUrlPattern (u : String) : Bool :=
  let l := u.toList.map Char.toLower
  if startsWithL l ("http://".toList) then
    match l.drop 7 with
    | [] => false
    | _ :: after => hasPdfStop after
  else if startsWithL l ("https://".toList) then
    match l.drop 8 with
    | [] => false
    | _ :: after => hasPdfStop after
  else false

/-- src/lib/pdf/pdf-tool-refactored.ts, `handleUrlUpload` (lines 291-318):
empty input is ignored, the URL must match the PDF pattern, then a `HEAD`
probe must be ok and its `content-type` must contain `application/pdf` —
a missing header is rejected with "URL does not point to a PDF file".  On
success the data becomes `{url}` and the block renders the display. -/
def handleUrlUpload (s : State) (url : String) (head : HeadOutcome) : State :=
  if jsTrimEmpty url then s
  else if ¬ pdfUrlPattern url then
    { s with error := some "Please enter a valid PDF URL" }
  else
    match head with
    | .throws msg => { s with error := some (jsNullish msg "Invalid PDF URL") }
    | .response ok contentType =>
      if ¬ ok then { s with error := some "URL not accessible" }
      else if !(match contentType with
                | some c => containsSub c "application/pdf"
                | none => false) then
        { s with error := some "URL does not point to a PDF file" }
      else
        { data := { url := url }, error := none }

end PDFTool

namespace AudioTypes

/-- src/types/audio.ts: `AUDIO_MIME_TYPES` — the block-level allow-list
(13 entries, wider than the gateway's). -/
def AUDIO_MIME_TYPES : List String :=
  ["audio/mpeg", "audio/mp3", "audio/wav", "audio/wave", "audio/x-wav",
   "audio/ogg", "audio/vorbis", "audio/aac", "audio/mp4", "audio/m4a",
   "audio/webm", "audio/flac", "audio/x-flac"]

/-- src/types/audio.ts, `isAudioFile`: membership of the file's MIME type
in the block-level allow-list. -/
def isAudioFile (file : FileRep) : Bool :=
  decide (file.type ∈ AUDIO_MIME_TYPES)

/-- src/types/audio.ts, `getAudioFormatFromMimeType`: the MIME-to-format
lookup table, `none` for an unknown type (JS `|| null`). -/
def getAudioFormatFromMimeType (mimeType : String) : Option String :=
  if mimeType = "audio/mpeg" then some "mp3"
  else if mimeType = "audio/mp3" then some "mp3"
  else if mimeType = "audio/wav" then some "wav"
  else if mimeType = "audio/wave" then some "wav"
  else if mimeType = "audio/x-wav" then some "wav"
  else if mimeType = "audio/ogg" then some "ogg"
  else if mimeType = "audio/vorbis" then some "ogg"
  else if mimeType = "audio/aac" then some "aac"
  else if mimeType = "audio/mp4" then some "mp4"
  else if mimeType = "audio/m4a" then some "m4a"
  else if mimeType = "audio/webm" then some "webm"
  else if mimeType = "audio/flac" then some "flac"
  else if mimeType = "audio/x-flac" then some "flac"
  else none

end AudioTypes

namespace AudTool

/-- Structure `AudioFileData` from src/types/audio.ts.  The duration (float seconds
in the source) is modelled as an optional natural reported by the
metadata-decode oracle; only its presence and preservation matter here. -/
structure AudioFileData where
  url : String
  name : String
  size : Nat
  title : Option String := none
  artist : Option String := none
  duration : Option Nat := none
  format : Option String := none
  deriving DecidableEq, Repr

/-- Structure `AudioData` from src/types/audio.ts: the block's serialized form. -/
structure AudioData where
  url : String
  title : Option String := none
  artist : Option String := none
  file : Option AudioFileData := none
  deriving DecidableEq, Repr

/-- The upload result's `file` payload as the audio tool reads it
(src/lib/audio/audio-tool.ts lines 284-294): only `url` is required. -/
structure ResFile where
  url : String
  name : Option String := none
  size : Option Nat := none
  title : Option String := none
  artist : Option String := none
  deriving DecidableEq, Repr

/-- The uploader's resolved value: `success`, optional `file`, optional
`message`. -/
structure UploadResult where
  success : Nat
  file : Option ResFile := none
  message : Option String := none
  deriving DecidableEq, Repr

/-- Outcome of `await this.config.uploader(file)`. -/
inductive UploaderOutcome where
  | resolves (r : UploadResult)
  | throws (msg : Option String)
  deriving DecidableEq, Repr

/-- The slice of `AudioToolConfig` the handlers read. -/
structure Config where
  maxSize : Option Nat := some (50 * 1024 * 1024)
  errorMessage : Option String := none
  hasUploader : Bool := true
  deriving Repr

/-- Observable state of an `AudioTool` block. -/
structure State where
  data : AudioData
  error : Option String := none
  deriving DecidableEq, Repr

/-- Result of `getAudioMetadata`: the decoded duration, absent when the
decode fails or reports a non-finite value. -/
structure AudioMetadata where
  duration : Option Nat := none
  deriving DecidableEq, Repr

/-- src/lib/audio/audio-tool.ts, `save` (lines 463-465): returns the
current block data verbatim. -/
def save (s : State) : AudioData :=
  s.data

/-- The `AudioData` value assembled on a successful upload
(src/lib/audio/audio-tool.ts lines 324-337): url from the result,
title/name/size falling back to the source file (JS `||`), artist taken
as-is, duration from the metadata probe, format from the MIME lookup. -/
def assembleData (file : FileRep) (rf : ResFile) (meta : AudioMetadata) :
    AudioData :=
  { url := rf.url,
    title := some (jsOr rf.title file.name),
    artist := rf.artist,
    file := some { url := rf.url,
                   name := jsOr rf.name file.name,
                   size := jsOrNat rf.size file.size,
                   title := some (jsOr rf.title file.name),
                   artist := rf.artist,
                   duration := meta.duration,
                   format := AudioTypes.getAudioFormatFromMimeType file.type } }

/-- src/lib/audio/audio-tool.ts, `handleFileUpload` (lines 258-351):
reject non-audio MIME types and oversizes inline, run the uploader, and on
a result with `success === 1` and an object `file` store the assembled
data; every failure shows `Upload failed: <message>` and stays in the
upload state. -/
def handleFileUpload (s : State) (cfg : Config) (file : FileRep)
    (uploader : UploaderOutcome) (meta : AudioMetadata) : State :=
  if ¬ AudioTypes.isAudioFile file then
    { s with error := some "Please select a valid audio file" }
  else if jsMaxExceeded cfg.maxSize file.size then
    { s with error := some ("File size exceeds "
        ++ toString (mbRound (cfg.maxSize.getD 0)) ++ "MB limit") }
  else if ¬ cfg.hasUploader then
    { s with error := some "Upload failed: No upload method configured" }
  else
    match uploader with
    | .throws msg =>
      { s with error := some ("Upload failed: " ++ jsNullish msg "Unknown error") }
    | .resolves r =>
      match r.file with
      | some rf =>
        if r.success = 1 then
          { data := assembleData file rf meta, error := none }
        else
          { s with error := some ("Upload failed: "
              ++ jsNullish r.message "Upload failed") }
      | none =>
        { s with error := some ("Upload failed: "
            ++ jsNullish r.message "Upload failed") }

/-- src/lib/audio/audio-tool.ts, `isValidUrl` (lines 413-420), modelling
browser URL parsing (simplified): an http or https scheme followed by at
least one character. -/
def isValidUrl (u : String) : Bool :=
  let l := u.toList.map Char.toLower
  (startsWithL l ("http://".toList) && !(l.drop 7).isEmpty) ||
  (startsWithL l ("https://".toList) && !(l.drop 8).isEmpty)

/-- The audio extension list of the `isAudioUrl` pattern. -/
def audioExts : List String :=
  ["mp3", "wav", "ogg", "aac", "m4a", "webm", "flac"]

/-- Scan for `.`-extension occurrences followed by the end or a query
string, as the pattern `\.(mp3|wav|ogg|aac|m4a|webm|flac)(\?.*)?$` does. -/
def audioExtStop : List Char → Bool
  | [] => false
  | c :: rest =>
    (audioExts.any fun e =>
      startsWithL (c :: rest) ('.' :: e.toList) &&
      (match (c :: rest).drop (e.length + 1) with
       | [] => true
       | '?' :: _ => true
       | _ => false)) || audioExtStop rest

/-- src/lib/audio/audio-tool.ts, `isAudioUrl` (lines 422-425): the URL ends
with a recognized audio extension, optionally followed by a query string
(case-insensitive). -/
def isAudioUrl (u : String) : Bool :=
  audioExtStop (u.toList.map Char.toLower)

/-- The characters after the `"://"` scheme separator, used to model
`new URL(url).pathname`. -/
def afterSchemeSep : List Char → List Char
  | [] => []
  | ':' :: '/' :: '/' :: tail => tail
  | _ :: rest => afterSchemeSep rest

/-- Modelled `new URL(url).pathname` for http(s) URLs: from the first `/`
after the authority up to a `?` or `#`. -/
def urlPathname (u : String) : List Char :=
  ((afterSchemeSep u.toList).dropWhile (· ≠ '/')).takeWhile
    (fun c => c ≠ '?' && c ≠ '#')

/-- Models `pathname.split('/').pop()`: the final path segment. -/
def lastSegment (l : List Char) : List Char :=
  (l.reverse.takeWhile (· ≠ '/')).reverse

/-- Models the replace of a trailing dot-extension (at least one character, no slash or dot): strip one trailing extension of at
least one character. -/
def stripExt (l : List Char) : List Char :=
  let r := l.reverse
  let ext := r.takeWhile (fun c => c ≠ '.' && c ≠ '/')
  match r.drop ext.length with
  | '.' :: _ => if ext.isEmpty then l else (r.drop (ext.length + 1)).reverse
  | _ => l

/-- src/lib/audio/audio-tool.ts, `extractTitleFromUrl` (lines 427-435):
the last pathname segment without its extension; `"Audio File"` when URL
parsing throws. -/
def extractTitleFromUrl (u : String) : String :=
  if isValidUrl u then String.mk (stripExt (lastSegment (urlPathname u)))
  else "Audio File"

/-- src/lib/audio/audio-tool.ts, `handleUrlUpload` (lines 353-389): the URL
must be a valid http(s) URL with an audio extension; the `HEAD` probe must
be ok; the `content-type` check is skipped when the header is absent
(`if (contentType && !contentType.startsWith('audio/'))`).  On success the
data becomes `{url, title}` and the block renders the display. -/
def handleUrlUpload (s : State) (url : String) (head : HeadOutcome) : State :=
  if ¬ isValidUrl url then
    { s with error := some "Please enter a valid HTTP/HTTPS URL" }
  else if ¬ isAudioUrl url then
    { s with error := some "URL does not appear to be an audio file" }
  else
    match head with
    | .throws msg =>
      { s with error := some ("Invalid audio URL: " ++ jsNullish msg "Unable to access") }
    | .response ok contentType =>
      if ¬ ok then
        { s with error := some "Invalid audio URL: URL not accessible" }
      else if (match contentType with
               | some c => !(strStartsWith c "audio/")
               | none => false) then
        { s with error := some "Invalid audio URL: URL does not point to an audio file" }
      else
        { data := { url := url, title := some (extractTitleFromUrl url) },
          error := none }

end AudTool

/-- C5: for both block controllers, `save()` immediately after a successful
upload returns exactly the `AttachmentData` assembled during that upload —
url, title and every file-metadata field are serialized unchanged. -/
theorem C5_save_round_trip
    (sp : PDFTool.State) (cfgP : PDFTool.Config) (fp : FileRep)
    (rp : PDFTool.UploadResponse) (rfP : PDFTool.PDFFileData)
    (sa : AudTool.State) (cfgA : AudTool.Config) (fa : FileRep)
    (ra : AudTool.UploadResult) (rfA : AudTool.ResFile)
    (meta : AudTool.AudioMetadata)
    (hp1 : fp.type = "application/pdf")
    (hp2 : jsMaxExceeded cfgP.maxSize fp.size = false)
    (hp3 : cfgP.hasUploader = true)
    (hp4 : rp.success = 1) (hp5 : rp.file = some rfP)
    (ha1 : AudioTypes.isAudioFile fa = true)
    (ha2 : jsMaxExceeded cfgA.maxSize fa.size = false)
    (ha3 : cfgA.hasUploader = true)
    (ha4 : ra.success = 1) (ha5 : ra.file = some rfA) :
    PDFTool.save (PDFTool.handleFileUpload sp cfgP fp (.resolves rp))
      = PDFTool.assembleData fp rfP ∧
    AudTool.save (AudTool.handleFileUpload sa cfgA fa (.resolves ra) meta)
      = AudTool.assembleData fa rfA meta := by
  constructor
  · simp [PDFTool.handleFileUpload, PDFTool.save, hp1, hp2, hp3, hp4, hp5]
  · simp [AudTool.handleFileUpload, AudTool.save, ha1, ha2, ha3, ha4, ha5]

/-- C5 witness: concrete PDF and audio uploads whose assembled data is
reproduced verbatim by `save()`. -/
theorem C5_save_round_trip_witness :
    PDFTool.save (PDFTool.handleFileUpload ⟨⟨"", none, none⟩, none⟩
        ⟨some 20971520, none, true⟩ ⟨"report final.pdf", "application/pdf", 123⟩
        (.resolves ⟨1, some ⟨"https://cdn/u/r.pdf", "report final.pdf", 123, none⟩, none⟩))
      = PDFTool.assembleData ⟨"report final.pdf", "application/pdf", 123⟩
          ⟨"https://cdn/u/r.pdf", "report final.pdf", 123, none⟩ ∧
    AudTool.save (AudTool.handleFileUpload ⟨⟨"", none, none, none⟩, none⟩
        ⟨some 52428800, none, true⟩ ⟨"song.mp3", "audio/mpeg", 77⟩
        (.resolves ⟨1, some ⟨"https://cdn/u/song.mp3", some "song.mp3", some 77, none, none⟩, none⟩)
        ⟨some 180⟩)
      = AudTool.assembleData ⟨"song.mp3", "audio/mpeg", 77⟩
          ⟨"https://cdn/u/song.mp3", some "song.mp3", some 77, none, none⟩ ⟨some 180⟩ :=
  C5_save_round_trip ⟨⟨"", none, none⟩, none⟩ ⟨some 20971520, none, true⟩
    ⟨"report final.pdf", "application/pdf", 123⟩
    ⟨1, some ⟨"https://cdn/u/r.pdf", "report final.pdf", 123, none⟩, none⟩
    ⟨"https://cdn/u/r.pdf", "report final.pdf", 123, none⟩
    ⟨⟨"", none, none, none⟩, none⟩ ⟨some 52428800, none, true⟩
    ⟨"song.mp3", "audio/mpeg", 77⟩
    ⟨1, some ⟨"https://cdn/u/song.mp3", some "song.mp3", some 77, none, none⟩, none⟩
    ⟨"https://cdn/u/song.mp3", some "song.mp3", some 77, none, none⟩
    ⟨some 180⟩
    rfl (by decide) rfl rfl rfl (by decide) (by decide) rfl rfl rfl

/-- C9: on URL paste with a `HEAD` response that is ok but has no
`content-type` header, the audio controller accepts (skipping the
content-type check) and transitions to the populated state, while the PDF
controller rejects with "URL does not point to a PDF file" and keeps its
data (remaining in the upload state). -/
theorem C9_missing_content_type
    (sa : AudTool.State) (ua : String)
    (sp : PDFTool.State) (up : String)
    (ha1 : AudTool.isValidUrl ua = true)
    (ha2 : AudTool.isAudioUrl ua = true)
    (hp0 : jsTrimEmpty up = false)
    (hp1 : PDFTool.pdfUrlPattern up = true) :
    (AudTool.handleUrlUpload sa ua (.response true none)).data =
      { url := ua, title := some (AudTool.extractTitleFromUrl ua) } ∧
    (AudTool.handleUrlUpload sa ua (.response true none)).error = none ∧
    ua ≠ "" ∧
    (PDFTool.handleUrlUpload sp up (.response true none)).data = sp.data ∧
    (PDFTool.handleUrlUpload sp up (.response true none)).error =
      some "URL does not point to a PDF file" := by
  refine ⟨?_, ?_, ?_, ?_, ?_⟩
  · simp [AudTool.handleUrlUpload, ha1, ha2]
  · simp [AudTool.handleUrlUpload, ha1, ha2]
  · intro h
    rw [h] at ha1
    exact absurd ha1 (by decide)
  · simp [PDFTool.handleUrlUpload, hp0, hp1]
  · simp [PDFTool.handleUrlUpload, hp0, hp1]

/-- C9 witness: `https://host/song.mp3` with an ok, header-less `HEAD`
populates the audio block; `https://host/x.pdf` under the same probe is
rejected by the PDF block. -/
theorem C9_missing_content_type_witness :
    (AudTool.handleUrlUpload ⟨⟨"", none, none, none⟩, none⟩ "https://host/song.mp3"
        (.response true none)).data =
      { url := "https://host/song.mp3",
        title := some (AudTool.extractTitleFromUrl "https://host/song.mp3") } ∧
    (AudTool.handleUrlUpload ⟨⟨"", none, none, none⟩, none⟩ "https://host/song.mp3"
        (.response true none)).error = none ∧
    ("https://host/song.mp3" : String) ≠ "" ∧
    (PDFTool.handleUrlUpload ⟨⟨"", none, none⟩, none⟩ "https://host/x.pdf"
        (.response true none)).data = (⟨⟨"", none, none⟩, none⟩ : PDFTool.State).data ∧
    (PDFTool.handleUrlUpload ⟨⟨"", none, none⟩, none⟩ "https://host/x.pdf"
        (.response true none)).error = some "URL does not point to a PDF file" :=
  C9_missing_content_type ⟨⟨"", none, none, none⟩, none⟩ "https://host/song.mp3"
    ⟨⟨"", none, none⟩, none⟩ "https://host/x.pdf"
    (by decide) (by decide) (by decide) (by decide)

namespace UtilsDownload

/-- Observable events of src/lib/utils/download.ts `downloadPDF`: the
single upfront GET fetch, showing the native save dialog, the
console notice on user cancellation, the blob-link activation, the
direct-link activation, and opening a new tab. -/
inductive Ev where
  | fetch
  | nativeDialog
  | cancelLog
  | blobDownload
  | directLink
  | newTab
  deriving DecidableEq, Repr

/-- Outcome of the native-save-dialog try block (picker, writable, write):
success, an `AbortError` (user cancelled), or any other throw. -/
inductive S1Outcome where
  | success
  | abort
  | otherFailure
  deriving DecidableEq, Repr

/-- Oracle environment for one `downloadPDF` call: whether the URL is
same-origin, whether the upfront fetch resolves ok, whether the File
System Access API is available, the dialog outcome, whether the
direct-link fallback throws, and the `fallbackToOpen` option (default
true). -/
structure Env where
  sameOrigin : Bool
  fetchOk : Bool
  fsaSupported : Bool
  s1 : S1Outcome
  directLinkThrows : Bool
  fallbackToOpen : Bool
  deriving DecidableEq, Repr

/-- The promise either resolves (void) or rejects with an error message. -/
inductive Outcome where
  | returned
  | threw (msg : String)
  deriving DecidableEq, Repr

/-- src/lib/utils/download.ts, `downloadPDF` (lines 24-118): fetch once if
same-origin; with a blob and FSA support try the native dialog —
returning silently on cancel, falling to the blob link on other failures;
with a blob but no dialog use the blob link; without a blob use the
direct link, opening a new tab only if the direct link throws and
`fallbackToOpen` is set, else rethrowing. -/
def downloadPDF (env : Env) : Outcome × List Ev :=
  let fetchEvs := if env.sameOrigin then [Ev.fetch] else []
  let hasBlob := env.sameOrigin && env.fetchOk
  if hasBlob && env.fsaSupported then
    match env.s1 with
    | .success => (.returned, fetchEvs ++ [.nativeDialog])
    | .abort => (.returned, fetchEvs ++ [.nativeDialog, .cancelLog])
    | .otherFailure => (.returned, fetchEvs ++ [.nativeDialog, .blobDownload])
  else if hasBlob then
    (.returned, fetchEvs ++ [.blobDownload])
  else if ¬ env.directLinkThrows then
    (.returned, fetchEvs ++ [.directLink])
  else if env.fallbackToOpen then
    (.returned, fetchEvs ++ [.directLink, .newTab])
  else
    (.threw "Download failed: Unable to download file", fetchEvs ++ [.directLink])

end UtilsDownload

namespace LibDownload

/-- The three cascade strategies of the unnamed lib download utility
(src/unnamed/part_001, `downloadPDF`): native save dialog, blob-link
download (whose fetch is the strategy's first step), and new-tab. -/
inductive Ev where
  | strategy1
  | strategy2
  | strategy3
  deriving DecidableEq, Repr

/-- Outcome of the File System Access try block: success, `AbortError`,
`NotAllowedError`, or any other throw (picker, fetch or write failure). -/
inductive S1Outcome where
  | success
  | abort
  | notAllowed
  | otherFailure
  deriving DecidableEq, Repr

/-- Oracle environment: FSA availability, the dialog-block outcome,
whether strategy 2's fetch resolves ok, and whether `window.open`
throws. -/
structure Env where
  fsaSupported : Bool
  s1 : S1Outcome
  fetch2Ok : Bool
  openThrows : Bool
  deriving DecidableEq, Repr

/-- Constant `DownloadError.USER_CANCELLED`. -/
def USER_CANCELLED : String := "User cancelled the download"

/-- Constant `DownloadError.PERMISSION_DENIED`. -/
def PERMISSION_DENIED : String := "Permission denied to save file"

/-- Constant `DownloadError.INVALID_URL`. -/
def INVALID_URL : String := "Invalid or inaccessible URL"

/-- Constant `DownloadError.UNKNOWN_ERROR`. -/
def UNKNOWN_ERROR : String := "An unknown error occurred"

/-- Structure `DownloadResult`: success flag, the method that concluded the call,
and an optional error reason. -/
structure DownloadResult where
  success : Bool
  method : String
  error : Option String := none
  deriving DecidableEq, Repr

/-- Strategies 2 and 3 of the cascade (src/unnamed/part_001 lines
468-513): fetch the bytes and activate a blob link; on any failure open
the URL in a new tab, failing with `UNKNOWN_ERROR` only if `window.open`
itself throws. -/
def fallbackChain (env : Env) (tr : List Ev) : DownloadResult × List Ev :=
  if env.fetch2Ok then
    (⟨true, "download-link", none⟩, tr ++ [.strategy2])
  else if ¬ env.openThrows then
    (⟨true, "new-tab", none⟩, tr ++ [.strategy2, .strategy3])
  else
    (⟨false, "new-tab", some UNKNOWN_ERROR⟩, tr ++ [.strategy2, .strategy3])

/-- src/unnamed/part_001, `downloadPDF` (lines 404-514): an empty URL is
rejected outright; with FSA support the native dialog runs first,
returning immediately on success, `AbortError` or `NotAllowedError`, and
falling through to strategies 2-3 on any other failure; without FSA the
call starts at strategy 2. -/
def downloadPDF (url : String) (env : Env) : DownloadResult × List Ev :=
  if url = "" then
    (⟨false, "new-tab", some INVALID_URL⟩, [])
  else if env.fsaSupported then
    match env.s1 with
    | .success => (⟨true, "file-system-api", none⟩, [.strategy1])
    | .abort => (⟨false, "file-system-api", some USER_CANCELLED⟩, [.strategy1])
    | .notAllowed => (⟨false, "file-system-api", some PERMISSION_DENIED⟩, [.strategy1])
    | .otherFailure => fallbackChain env [.strategy1]
  else
    fallbackChain env []

end LibDownload

/-- C7: every call of the lib download cascade attempts the strategies in
the fixed order native-dialog, blob-link, new-tab, each at most once
(the event trace is always a sublist of `[strategy1, strategy2,
strategy3]`); and when strategy 1 is unavailable and strategy 2's fetch
fails, the trace is exactly `[strategy2, strategy3]` — strategy 3 is
reached exactly once and strategy 2 is never retried. -/
theorem C7_cascade_order (url : String) (env : LibDownload.Env) :
    ((LibDownload.downloadPDF url env).2).Sublist
      [LibDownload.Ev.strategy1, LibDownload.Ev.strategy2, LibDownload.Ev.strategy3] ∧
    (url ≠ "" → env.fsaSupported = false → env.fetch2Ok = false →
      (LibDownload.downloadPDF url env).2 =
        [LibDownload.Ev.strategy2, LibDownload.Ev.strategy3] ∧
      (LibDownload.downloadPDF url env).2.count LibDownload.Ev.strategy3 = 1 ∧
      (LibDownload.downloadPDF url env).2.count LibDownload.Ev.strategy2 = 1) := by
  obtain ⟨fsa, s1, f2, op⟩ := env
  constructor
  · by_cases hu : url = "" <;>
      cases fsa <;> cases s1 <;> cases f2 <;> cases op <;>
        simp [LibDownload.downloadPDF, LibDownload.fallbackChain, hu]
  · rintro hu rfl rfl
    simp only [LibDownload.downloadPDF, LibDownload.fallbackChain, hu]
    cases op <;> simp

/-- C7 witness: with FSA unavailable and the strategy-2 fetch failing, the
trace is exactly one blob-link attempt followed by one new-tab. -/
theorem C7_cascade_order_witness :
    (LibDownload.downloadPDF "https://host/x.pdf" ⟨false, .success, false, false⟩).2 =
      [LibDownload.Ev.strategy2, LibDownload.Ev.strategy3] ∧
    (LibDownload.downloadPDF "https://host/x.pdf"
        ⟨false, .success, false, false⟩).2.count LibDownload.Ev.strategy3 = 1 ∧
    (LibDownload.downloadPDF "https://host/x.pdf"
        ⟨false, .success, false, false⟩).2.count LibDownload.Ev.strategy2 = 1 :=
  (C7_cascade_order "https://host/x.pdf" ⟨false, .success, false, false⟩).2
    (by decide) rfl rfl

/-- C8: in src/lib/utils/download.ts, when strategy 1 runs and the user
cancels the dialog (`AbortError`), the call resolves normally with only
the cancellation notice logged and no fallback strategy attempted; every
other strategy-1 failure falls through to the blob-link download. -/
theorem C8_cancel_vs_failure (env : UtilsDownload.Env)
    (h1 : env.sameOrigin = true) (h2 : env.fetchOk = true)
    (h3 : env.fsaSupported = true) :
    (env.s1 = .abort →
      UtilsDownload.downloadPDF env =
        (.returned, [UtilsDownload.Ev.fetch, UtilsDownload.Ev.nativeDialog,
          UtilsDownload.Ev.cancelLog])) ∧
    (env.s1 = .otherFailure →
      UtilsDownload.downloadPDF env =
        (.returned, [UtilsDownload.Ev.fetch, UtilsDownload.Ev.nativeDialog,
          UtilsDownload.Ev.blobDownload])) := by
  obtain ⟨so, fo, fsa, s1, dl, fb⟩ := env
  simp only at h1 h2 h3
  subst h1; subst h2; subst h3
  constructor <;> rintro rfl <;> rfl

/-- C8 witness: a cancelled dialog resolves silently with no fallback; a
non-abort dialog failure falls through to the blob-link download. -/
theorem C8_cancel_vs_failure_witness :
    UtilsDownload.downloadPDF ⟨true, true, true, .abort, false, true⟩ =
      (.returned, [UtilsDownload.Ev.fetch, UtilsDownload.Ev.nativeDialog,
        UtilsDownload.Ev.cancelLog]) ∧
    UtilsDownload.downloadPDF ⟨true, true, true, .otherFailure, false, true⟩ =
      (.returned, [UtilsDownload.Ev.fetch, UtilsDownload.Ev.nativeDialog,
        UtilsDownload.Ev.blobDownload]) :=
  ⟨(C8_cancel_vs_failure ⟨true, true, true, .abort, false, true⟩ rfl rfl rfl).1 rfl,
   (C8_cancel_vs_failure ⟨true, true, true, .otherFailure, false, true⟩ rfl rfl rfl).2 rfl⟩
